import Mathlib

/-!
Verification of the per-session admission controller (sliding-window rate
limiter) described in the repository's design document.  The repository's
`main.py` does not contain the admission-control code (only its test file
`test_main.py` is present), so the evaluator and the session store are
modelled from the specification text and verified against the properties
it states.
-/

namespace RateLimiter

/-- Modelled from the spec: `WINDOW_SECONDS` (trailing window length),
process-wide constant; the concrete scenarios fix it to 60. -/
def WINDOW_SECONDS : Int := 60

/-- Modelled from the spec: `RPM_LIMIT` (max admitted records in any window),
process-wide constant; the concrete scenarios fix it to 60. -/
def RPM_LIMIT : Nat := 60

/-- Modelled from the spec: `TPM_LIMIT` (max sum of tokens across admitted
records in any window), process-wide constant; the concrete scenarios fix it
to 10000. -/
def TPM_LIMIT : Nat := 10000

/-- Modelled from the spec: a ledger record `(timestamp, tokens)` — one entry
per admitted call.  Timestamps are instants measured in seconds (an integer),
token counts are non-negative integers. -/
abbrev Record := Int × Nat

/-- Modelled from the spec: `SessionLedger.records`, the ordered sequence of
admitted-call records, oldest first. -/
abbrev Ledger := List Record

/-- Modelled from the spec, §4.1 step 1: the retained subsequence of
`ledger.records` whose `now - timestamp ≤ WINDOW_SECONDS` (inclusive
boundary).  This is the eviction step. -/
def evict (l : Ledger) (now : Int) : Ledger :=
  l.filter (fun r => decide (now - r.1 ≤ WINDOW_SECONDS))

/-- Modelled from the spec: the sum of `tokens` across a list of records. -/
def tokenSum (l : Ledger) : Nat :=
  (l.map Prod.snd).sum

/-- The decision returned by the evaluator. -/
inductive Decision where
  | Admitted : Decision
  | Rejected : Decision
  deriving DecidableEq

/-- Modelled from the spec, §4.1: the operation
`check(ledger, tokens_requested, now) -> Decision`, returned together with
the ledger as stored after the call.  Step 2 (count check) rejects without
writing anything back; step 3 (token check) rejects with the eviction of
expired records committed (the spec: an external observer only sees eviction
effects on a call that proceeds to the token check); step 4 appends the
candidate to the retained list and stores it back. -/
def check (l : Ledger) (tokens_requested : Nat) (now : Int) :
    Decision × Ledger :=
  let retained := evict l now
  if retained.length + 1 > RPM_LIMIT then
    (Decision.Rejected, l)
  else if tokenSum retained + tokens_requested > TPM_LIMIT then
    (Decision.Rejected, retained)
  else
    (Decision.Admitted, retained ++ [(now, tokens_requested)])

/-- Modelled from the spec, §4.2: the session state store maps a session
identity to its ledger. -/
def Store := Nat → Ledger

/-- Modelled from the spec, §4.2: one call on behalf of session `sid`
replaces only that session's ledger. -/
def stepStore (s : Store) (sid : Nat) (tok : Nat) (now : Int) : Store :=
  fun i => if i = sid then (check (s i) tok now).2 else s i

/-- Modelled from the spec, §4.2: the decision of a call on behalf of
session `sid` is computed from that session's ledger. -/
def storeDecision (s : Store) (sid : Nat) (tok : Nat) (now : Int) :
    Decision :=
  (check (s sid) tok now).1

/-- Modelled from the spec and the test file's declarations: the reference
implementation `is_rate_limited(tokens_used)` keeps two parallel
context-variable lists, `session_request_timestamps` and
`session_token_counts`, zips them, filters the zipped pairs by window age,
and runs the same dual-limit check; it returns `true` when the call is
rate-limited.  The function returns the flag together with the two lists as
stored after the call. -/
def is_rate_limited (tokens_used : Nat) (now : Int)
    (timestamps : List Int) (token_counts : List Nat) :
    Bool × List Int × List Nat :=
  let pairs := (timestamps.zip token_counts).filter
    (fun r => decide (now - r.1 ≤ WINDOW_SECONDS))
  if pairs.length + 1 > RPM_LIMIT then
    (true, timestamps, token_counts)
  else if (pairs.map Prod.snd).sum + tokens_used > TPM_LIMIT then
    (true, pairs.map Prod.fst, pairs.map Prod.snd)
  else
    (false, pairs.map Prod.fst ++ [now], pairs.map Prod.snd ++ [tokens_used])

/-- Iterated calls: the ledger after `n` consecutive calls of cost `c`, all
at instant `now`, starting from the empty ledger. -/
def runN (c : Nat) (now : Int) : Nat → Ledger
  | 0 => []
  | n + 1 => (check (runN c now n) c now).2

/- Helper lemmas. -/

theorem check_eval (l : Ledger) (tok : Nat) (now : Int) :
    check l tok now =
      if (evict l now).length + 1 > RPM_LIMIT then
        (Decision.Rejected, l)
      else if tokenSum (evict l now) + tok > TPM_LIMIT then
        (Decision.Rejected, evict l now)
      else
        (Decision.Admitted, evict l now ++ [(now, tok)]) := rfl

theorem mem_evict (l : Ledger) (now : Int) (r : Record) :
    r ∈ evict l now ↔ r ∈ l ∧ now - r.1 ≤ WINDOW_SECONDS := by
  simp [evict, List.mem_filter]

theorem evict_replicate (n : Nat) (now : Int) (c : Nat) :
    evict (List.replicate n (now, c)) now = List.replicate n (now, c) := by
  apply List.filter_eq_self.mpr
  intro a ha
  have := List.eq_of_mem_replicate ha
  subst this
  simp [WINDOW_SECONDS]

theorem tokenSum_replicate (n : Nat) (now : Int) (c : Nat) :
    tokenSum (List.replicate n (now, c)) = n * c := by
  simp [tokenSum, List.map_replicate, List.sum_replicate, smul_eq_mul]

theorem zip_map_fst_snd {α β : Type} (l : List (α × β)) :
    (l.map Prod.fst).zip (l.map Prod.snd) = l := by
  induction l with
  | nil => rfl
  | cons a t ih => simp [List.zip, ih]

theorem check_replicate_lt (i c : Nat) (now : Int)
    (hi : i < RPM_LIMIT) (hc : RPM_LIMIT * c ≤ TPM_LIMIT) :
    check (List.replicate i (now, c)) c now =
      (Decision.Admitted, List.replicate (i + 1) (now, c)) := by
  rw [check_eval, evict_replicate, tokenSum_replicate, List.length_replicate]
  have h1 : ¬ (i + 1 > RPM_LIMIT) := by omega
  have hmul : (i + 1) * c ≤ TPM_LIMIT :=
    le_trans (Nat.mul_le_mul_right c (by omega)) hc
  have h2 : ¬ (i * c + c > TPM_LIMIT) := by
    rw [Nat.succ_mul] at hmul
    exact Nat.not_lt.mpr hmul
  rw [if_neg h1, if_neg h2, ← List.replicate_succ']

theorem runN_eq_replicate (c : Nat) (now : Int)
    (hc : RPM_LIMIT * c ≤ TPM_LIMIT) :
    ∀ i, i ≤ RPM_LIMIT → runN c now i = List.replicate i (now, c) := by
  intro i
  induction i with
  | zero => intro _; rfl
  | succ n ih =>
    intro h
    show (check (runN c now n) c now).2 = _
    rw [ih (by omega), check_replicate_lt n c now (by omega) hc]

/- Claim theorems. -/

/-- Claim C1: starting from an empty ledger, within one window, `RPM_LIMIT`
consecutive calls to check (each with a token cost small enough never to
trip the token limit) all return Admit, and the `(RPM_LIMIT+1)`-th
consecutive call returns Reject. -/
theorem claim_C1_count_limit (c : Nat) (now : Int)
    (hc : RPM_LIMIT * c ≤ TPM_LIMIT) :
    (∀ i, i < RPM_LIMIT →
      (check (runN c now i) c now).1 = Decision.Admitted) ∧
    (check (runN c now RPM_LIMIT) c now).1 = Decision.Rejected := by
  constructor
  · intro i hi
    rw [runN_eq_replicate c now hc i (le_of_lt hi),
        check_replicate_lt i c now hi hc]
  · rw [runN_eq_replicate c now hc RPM_LIMIT le_rfl, check_eval,
        evict_replicate, List.length_replicate,
        if_pos (by omega : RPM_LIMIT + 1 > RPM_LIMIT)]

/-- Witness for C1 at token cost 10 (the spec's scenario 3). -/
theorem claim_C1_count_limit_witness :
    RPM_LIMIT * 10 ≤ TPM_LIMIT ∧
    ((∀ i, i < RPM_LIMIT →
        (check (runN 10 0 i) 10 0).1 = Decision.Admitted) ∧
     (check (runN 10 0 RPM_LIMIT) 10 0).1 = Decision.Rejected) :=
  ⟨by decide, claim_C1_count_limit 10 0 (by decide)⟩

/-- Claim C2: starting from an empty ledger, for every k with
`0 < k ≤ TPM_LIMIT` (so that `TPM_LIMIT - k` is a legal non-negative token
count): a call with `tokens_requested = TPM_LIMIT - k` is admitted; an
immediately following call within the same window with
`tokens_requested = k + 1` is rejected; and a following call within the
same window with `tokens_requested = k` is admitted. -/
theorem claim_C2_token_limit (k : Nat) (n1 n2 n3 : Int)
    (hk0 : 0 < k) (hk : k ≤ TPM_LIMIT)
    (h2 : n2 - n1 ≤ WINDOW_SECONDS) (h3 : n3 - n1 ≤ WINDOW_SECONDS) :
    check [] (TPM_LIMIT - k) n1 =
      (Decision.Admitted, [(n1, TPM_LIMIT - k)]) ∧
    check [(n1, TPM_LIMIT - k)] (k + 1) n2 =
      (Decision.Rejected, [(n1, TPM_LIMIT - k)]) ∧
    (check [(n1, TPM_LIMIT - k)] k n3).1 = Decision.Admitted := by
  have hev2 : evict [(n1, TPM_LIMIT - k)] n2 = [(n1, TPM_LIMIT - k)] := by
    apply List.filter_eq_self.mpr
    intro a ha
    rw [List.mem_singleton] at ha
    subst ha
    simpa using h2
  have hev3 : evict [(n1, TPM_LIMIT - k)] n3 = [(n1, TPM_LIMIT - k)] := by
    apply List.filter_eq_self.mpr
    intro a ha
    rw [List.mem_singleton] at ha
    subst ha
    simpa using h3
  have hsum : tokenSum [(n1, TPM_LIMIT - k)] = TPM_LIMIT - k := by
    simp [tokenSum]
  refine ⟨?_, ?_, ?_⟩
  · rw [check_eval]
    have he : evict ([] : Ledger) n1 = [] := rfl
    rw [he]
    rw [if_neg (by simp [RPM_LIMIT])]
    rw [if_neg (by simp only [tokenSum, List.map_nil, List.sum_nil]; omega)]
    rfl
  · rw [check_eval, hev2, hsum, List.length_singleton]
    rw [if_neg (by simp [RPM_LIMIT])]
    rw [if_pos (by omega)]
  · rw [check_eval, hev3, hsum, List.length_singleton]
    rw [if_neg (by simp [RPM_LIMIT])]
    rw [if_neg (by omega)]

/-- Witness for C2 at k = 100 (the spec's scenario 2), all three calls at
instant 0. -/
theorem claim_C2_token_limit_witness :
    (0 < 100 ∧ 100 ≤ TPM_LIMIT ∧ (0 : Int) - 0 ≤ WINDOW_SECONDS) ∧
    (check [] (TPM_LIMIT - 100) 0 =
      (Decision.Admitted, [((0 : Int), TPM_LIMIT - 100)]) ∧
     check [((0 : Int), TPM_LIMIT - 100)] 101 0 =
      (Decision.Rejected, [((0 : Int), TPM_LIMIT - 100)]) ∧
     (check [((0 : Int), TPM_LIMIT - 100)] 100 0).1 = Decision.Admitted) :=
  ⟨⟨by decide, by decide, by decide⟩,
   by
    have h := claim_C2_token_limit 100 0 0 0 (by decide) (by decide)
      (by decide) (by decide)
    simpa using h⟩

/-- Claim C3 (counterexample): a call rejected by the count check leaves the
ledger unchanged, so a record whose age already exceeded `WINDOW_SECONDS`
is NOT removed, contradicting the claim that such records are required to
be removed on every rejected call.  Concretely: a ledger holding one record
aged 200 seconds plus 60 fresh records; the call is rejected and the
expired record is still stored afterwards. -/
theorem claim_C3_counterexample :
    (check ((-200, 7) :: List.replicate 60 ((0 : Int), 2)) 3 0).1 =
      Decision.Rejected ∧
    ((-200, 7) : Record) ∈
      (check ((-200, 7) :: List.replicate 60 ((0 : Int), 2)) 3 0).2 ∧
    WINDOW_SECONDS < (0 : Int) - (-200 : Int) := by decide

/-- Claim C3 (amended): if check returns Reject, the candidate record is
never appended; the stored ledger is either left entirely unchanged (when
the count check failed — expired records are then NOT removed) or equal to
the input ledger with exactly the expired records removed (when the count
check passed and the token check failed). -/
theorem claim_C3_reject_frame (l : Ledger) (tok : Nat) (now : Int)
    (hrej : (check l tok now).1 = Decision.Rejected) :
    ((evict l now).length + 1 > RPM_LIMIT ∧ (check l tok now).2 = l) ∨
    ((evict l now).length + 1 ≤ RPM_LIMIT ∧
      (check l tok now).2 = evict l now) := by
  rw [check_eval] at hrej ⊢
  split_ifs at hrej ⊢ with h1 h2
  · exact Or.inl ⟨h1, rfl⟩
  · exact Or.inr ⟨by omega, rfl⟩

/-- Witness for the amended C3: a token-check rejection on a one-record
ledger. -/
theorem claim_C3_reject_frame_witness :
    (check [((0 : Int), 9950)] 101 0).1 = Decision.Rejected ∧
    (((evict [((0 : Int), 9950)] 0).length + 1 > RPM_LIMIT ∧
        (check [((0 : Int), 9950)] 101 0).2 = [((0 : Int), 9950)]) ∨
     ((evict [((0 : Int), 9950)] 0).length + 1 ≤ RPM_LIMIT ∧
        (check [((0 : Int), 9950)] 101 0).2 = evict [((0 : Int), 9950)] 0)) :=
  ⟨by decide, claim_C3_reject_frame [((0 : Int), 9950)] 101 0 (by decide)⟩

/-- Claim C4: a ledger containing only records whose age exceeds
`WINDOW_SECONDS` behaves exactly as an empty ledger on the next call (same
decision for both the count and the token check, same stored result), and
on admission the resulting ledger contains only the newly admitted record. -/
theorem claim_C4_window_reset (l : Ledger) (tok : Nat) (now : Int)
    (hold : ∀ r ∈ l, WINDOW_SECONDS < now - r.1) :
    check l tok now = check [] tok now ∧
    ((check l tok now).1 = Decision.Admitted →
      (check l tok now).2 = [(now, tok)]) := by
  have he : evict l now = [] := by
    apply List.filter_eq_nil_iff.mpr
    intro a ha
    have := hold a ha
    simp only [decide_eq_true_eq]
    omega
  have he0 : evict ([] : Ledger) now = [] := rfl
  have hcount : ¬ (([] : Ledger).length + 1 > RPM_LIMIT) := by
    simp [RPM_LIMIT]
  constructor
  · rw [check_eval, check_eval, he, he0, if_neg hcount, if_neg hcount]
  · intro hadm
    rw [check_eval, he, if_neg hcount] at hadm ⊢
    split_ifs at hadm ⊢
    rfl

/-- Witness for C4: one record aged 65 seconds, a call of cost 20 (the
spec's scenario 4). -/
theorem claim_C4_window_reset_witness :
    (∀ r ∈ [((-65 : Int), 30)], WINDOW_SECONDS < (0 : Int) - r.1) ∧
    (check [((-65 : Int), 30)] 20 0 = check [] 20 0 ∧
     ((check [((-65 : Int), 30)] 20 0).1 = Decision.Admitted →
       (check [((-65 : Int), 30)] 20 0).2 = [((0 : Int), 20)])) :=
  ⟨by decide, claim_C4_window_reset [((-65 : Int), 30)] 20 0 (by decide)⟩

/-- Claim C5: the decision of a call on one session depends only on that
session's ledger (two stores agreeing on session `sid` yield the same
decision), and a call on session `sid` never mutates any other session's
ledger. -/
theorem claim_C5_session_isolation (s1 s2 : Store) (sid i tok : Nat)
    (now : Int) (hs : s1 sid = s2 sid) (hi : i ≠ sid) :
    storeDecision s1 sid tok now = storeDecision s2 sid tok now ∧
    stepStore s1 sid tok now i = s1 i := by
  constructor
  · unfold storeDecision
    rw [hs]
  · unfold stepStore
    simp [hi]

/-- Witness for C5: two stores agreeing on session 1 (session 0's ledgers
differ), a call on session 1 leaving session 0 untouched. -/
theorem claim_C5_session_isolation_witness :
    ((fun j => if j = 0 then [((0 : Int), 9900)] else []) : Store) 1 =
      ((fun j => if j = 0 then [((0 : Int), 9950)] else []) : Store) 1 ∧
    (0 : Nat) ≠ 1 ∧
    (storeDecision (fun j => if j = 0 then [((0 : Int), 9900)] else []) 1
        150 0 =
      storeDecision (fun j => if j = 0 then [((0 : Int), 9950)] else []) 1
        150 0 ∧
     stepStore (fun j => if j = 0 then [((0 : Int), 9900)] else []) 1 150 0
        0 =
      (fun j => if j = 0 then [((0 : Int), 9900)] else []) 0) :=
  ⟨by decide, by decide,
   claim_C5_session_isolation
     (fun j => if j = 0 then [((0 : Int), 9900)] else [])
     (fun j => if j = 0 then [((0 : Int), 9950)] else [])
     1 0 150 0 (by decide) (by decide)⟩

/-- Claim C6 (counterexample): after a call rejected by the count check,
a record older than the window is still in the stored ledger, so it is not
true that every record remaining after any evaluation is within
`WINDOW_SECONDS` of the evaluation's now.  Concretely: a ledger holding one
record aged 100 seconds plus 60 fresh records. -/
theorem claim_C6_counterexample :
    ((-100, 5) : Record) ∈
      (check ((-100, 5) :: List.replicate 60 ((0 : Int), 1)) 1 0).2 ∧
    WINDOW_SECONDS < (0 : Int) - (-100 : Int) := by decide

/-- Claim C6 (amended): after any evaluation that passes the count check
(and so proceeds to the token check, whether it then admits or rejects),
every record remaining in the ledger has a timestamp within
`WINDOW_SECONDS` of the now used by that evaluation; after a count-check
rejection the ledger is left as it was, so stale records may remain. -/
theorem claim_C6_window_invariant (l : Ledger) (tok : Nat) (now : Int)
    (hcount : (evict l now).length + 1 ≤ RPM_LIMIT) :
    ∀ r ∈ (check l tok now).2, now - r.1 ≤ WINDOW_SECONDS := by
  intro r hr
  rw [check_eval, if_neg (by omega)] at hr
  split_ifs at hr
  · exact ((mem_evict l now r).mp hr).2
  · rcases List.mem_append.mp hr with h | h
    · exact ((mem_evict l now r).mp h).2
    · rw [List.mem_singleton] at h
      subst h
      simp [WINDOW_SECONDS]

/-- Witness for the amended C6: an admitted call on a two-record ledger in
which one record has already expired. -/
theorem claim_C6_window_invariant_witness :
    (evict [((-70 : Int), 4), ((-10 : Int), 6)] 0).length + 1 ≤ RPM_LIMIT ∧
    ∀ r ∈ (check [((-70 : Int), 4), ((-10 : Int), 6)] 8 0).2,
      (0 : Int) - r.1 ≤ WINDOW_SECONDS :=
  ⟨by decide,
   claim_C6_window_invariant [((-70 : Int), 4), ((-10 : Int), 6)] 8 0
     (by decide)⟩

/-- Claim C7: on a call rejected by the count check, nothing is written
back to the stored ledger — the result is exactly `Reject` paired with the
input ledger: neither the candidate nor the eviction computed during the
call is committed.  (Hence an observer sees eviction effects only on calls
that proceed to the token check.) -/
theorem claim_C7_count_reject_no_commit (l : Ledger) (tok : Nat) (now : Int)
    (hcount : (evict l now).length + 1 > RPM_LIMIT) :
    check l tok now = (Decision.Rejected, l) := by
  rw [check_eval, if_pos hcount]

/-- Witness for C7: a ledger holding `RPM_LIMIT` fresh records plus one
expired record; the rejected call stores back the very same ledger. -/
theorem claim_C7_count_reject_no_commit_witness :
    (evict ((-90, 9) :: List.replicate 60 ((0 : Int), 3)) 0).length + 1 >
      RPM_LIMIT ∧
    check ((-90, 9) :: List.replicate 60 ((0 : Int), 3)) 2 0 =
      (Decision.Rejected, (-90, 9) :: List.replicate 60 ((0 : Int), 3)) :=
  ⟨by decide,
   claim_C7_count_reject_no_commit
     ((-90, 9) :: List.replicate 60 ((0 : Int), 3)) 2 0 (by decide)⟩

/-- Claim C8: eviction retains exactly the records with
`now - timestamp ≤ WINDOW_SECONDS`; a record whose age equals
`WINDOW_SECONDS` exactly is retained and still counts toward both limits
(it adds one to the retained count and its tokens to the retained sum),
while a record whose age strictly exceeds `WINDOW_SECONDS` is dropped and
counts toward neither limit: the decision is the same as if it were
absent. -/
theorem claim_C8_eviction_boundary (l : Ledger) (tok : Nat) (now : Int)
    (r1 r2 : Record)
    (hb : now - r1.1 = WINDOW_SECONDS)
    (hx : WINDOW_SECONDS < now - r2.1) :
    (∀ s : Record, s ∈ evict l now ↔ s ∈ l ∧ now - s.1 ≤ WINDOW_SECONDS) ∧
    evict (r1 :: l) now = r1 :: evict l now ∧
    (evict (r1 :: l) now).length = (evict l now).length + 1 ∧
    tokenSum (evict (r1 :: l) now) = r1.2 + tokenSum (evict l now) ∧
    evict (r2 :: l) now = evict l now ∧
    (check (r2 :: l) tok now).1 = (check l tok now).1 := by
  have h1 : evict (r1 :: l) now = r1 :: evict l now := by
    simp only [evict, List.filter_cons]
    rw [if_pos]
    simp [hb]
  have h2 : evict (r2 :: l) now = evict l now := by
    simp only [evict, List.filter_cons]
    rw [if_neg]
    simp only [decide_eq_true_eq]
    omega
  refine ⟨fun s => mem_evict l now s, h1, ?_, ?_, h2, ?_⟩
  · rw [h1, List.length_cons]
  · rw [h1]
    simp [tokenSum]
  · rw [check_eval, check_eval, h2]
    split_ifs <;> rfl

/-- Witness for C8: one record exactly at the 60-second boundary, one aged
61 seconds, over a one-record ledger. -/
theorem claim_C8_eviction_boundary_witness :
    ((0 : Int) - (-60 : Int) = WINDOW_SECONDS ∧
     WINDOW_SECONDS < (0 : Int) - (-61 : Int)) ∧
    ((∀ s : Record, s ∈ evict [((-1 : Int), 2)] 0 ↔
        s ∈ [((-1 : Int), 2)] ∧ (0 : Int) - s.1 ≤ WINDOW_SECONDS) ∧
     evict (((-60 : Int), 7) :: [((-1 : Int), 2)]) 0 =
        ((-60 : Int), 7) :: evict [((-1 : Int), 2)] 0 ∧
     (evict (((-60 : Int), 7) :: [((-1 : Int), 2)]) 0).length =
        (evict [((-1 : Int), 2)] 0).length + 1 ∧
     tokenSum (evict (((-60 : Int), 7) :: [((-1 : Int), 2)]) 0) =
        7 + tokenSum (evict [((-1 : Int), 2)] 0) ∧
     evict (((-61 : Int), 9) :: [((-1 : Int), 2)]) 0 =
        evict [((-1 : Int), 2)] 0 ∧
     (check (((-61 : Int), 9) :: [((-1 : Int), 2)]) 5 0).1 =
        (check [((-1 : Int), 2)] 5 0).1) :=
  ⟨⟨by decide, by decide⟩,
   claim_C8_eviction_boundary [((-1 : Int), 2)] 5 0 ((-60 : Int), 7)
     ((-61 : Int), 9) (by decide) (by decide)⟩

/-- Claim C9 (counterexample): on a ledger state whose retained records
already sum to more than `TPM_LIMIT`, a call with `tokens_requested = 0`
is rejected even though the count check passes, so it is not true for
every ledger state that a zero-token call is rejected only when the count
check fails. -/
theorem claim_C9_counterexample :
    (check [((0 : Int), 20000)] 0 0).1 = Decision.Rejected ∧
    (evict [((0 : Int), 20000)] 0).length + 1 ≤ RPM_LIMIT := by decide

/-- Claim C9 (amended): for every ledger state whose retained token sum
does not already exceed `TPM_LIMIT` (true of every state reachable by
admissions), and every now, a call with `tokens_requested = 0` passes the
token check, and it is rejected if and only if the count check fails. -/
theorem claim_C9_zero_tokens (l : Ledger) (now : Int)
    (hsum : tokenSum (evict l now) ≤ TPM_LIMIT) :
    ((check l 0 now).1 = Decision.Rejected ↔
      (evict l now).length + 1 > RPM_LIMIT) := by
  rw [check_eval]
  split_ifs with h1 h2
  · simp [h1]
  · omega
  · simp [h1]

/-- Witness for the amended C9: a zero-token call on a fresh one-record
ledger is admitted. -/
theorem claim_C9_zero_tokens_witness :
    tokenSum (evict [((0 : Int), 400)] 0) ≤ TPM_LIMIT ∧
    ((check [((0 : Int), 400)] 0 0).1 = Decision.Rejected ↔
      (evict [((0 : Int), 400)] 0).length + 1 > RPM_LIMIT) :=
  ⟨by decide, claim_C9_zero_tokens [((0 : Int), 400)] 0 (by decide)⟩

/-- Claim C10: after every call to `is_rate_limited` (admitted or
rejected), the session's timestamp list and token-count list have equal
length, and zipping them yields exactly the record ledger produced by the
pair-based evaluator — the i-th entries of the two lists describe the same
admitted call in admission order; the returned flag matches the pair-based
decision. -/
theorem claim_C10_parallel_lists (tok : Nat) (now : Int)
    (ts : List Int) (tks : List Nat) (hlen : ts.length = tks.length) :
    (is_rate_limited tok now ts tks).2.1.length =
      (is_rate_limited tok now ts tks).2.2.length ∧
    (is_rate_limited tok now ts tks).2.1.zip
        (is_rate_limited tok now ts tks).2.2 =
      (check (ts.zip tks) tok now).2 ∧
    ((is_rate_limited tok now ts tks).1 = true ↔
      (check (ts.zip tks) tok now).1 = Decision.Rejected) := by
  simp only [is_rate_limited, check, evict, tokenSum]
  split_ifs with h1 h2
  · exact ⟨hlen, rfl, by simp⟩
  · refine ⟨by simp, ?_, by simp⟩
    exact zip_map_fst_snd _
  · refine ⟨by simp, ?_, by simp⟩
    rw [List.zip_append (by simp), zip_map_fst_snd]
    rfl

/-- Witness for C10: one prior admitted call, a second call of cost 7. -/
theorem claim_C10_parallel_lists_witness :
    ([(0 : Int)].length = [(5 : Nat)].length) ∧
    ((is_rate_limited 7 0 [(0 : Int)] [(5 : Nat)]).2.1.length =
       (is_rate_limited 7 0 [(0 : Int)] [(5 : Nat)]).2.2.length ∧
     (is_rate_limited 7 0 [(0 : Int)] [(5 : Nat)]).2.1.zip
         (is_rate_limited 7 0 [(0 : Int)] [(5 : Nat)]).2.2 =
       (check ([(0 : Int)].zip [(5 : Nat)]) 7 0).2 ∧
     ((is_rate_limited 7 0 [(0 : Int)] [(5 : Nat)]).1 = true ↔
       (check ([(0 : Int)].zip [(5 : Nat)]) 7 0).1 = Decision.Rejected)) :=
  ⟨by decide, claim_C10_parallel_lists 7 0 [(0 : Int)] [(5 : Nat)]
    (by decide)⟩

end RateLimiter
